import Mathlib

/-!
Verification of the sudoku_py repository (src/sudoku_py/sudoku.py), a
Python 2 / Tkinter single-player Sudoku game.  The core logic embedded
here is:

* `SudokuBoard.__create_board` (lines 209-243): parses a sequence of text
  lines into a 9x9 matrix of digits, raising `SudokuError` on a line whose
  stripped length is not 9, on a non-digit character, or when the number
  of accepted lines is not 9.
* `SudokuGame.start` (lines 257-266): rebuilds `puzzle` cell by cell from
  `start_puzzle` and clears `game_over`.
* `SudokuGame.check_win` (lines 268-280) with `__check_block` (282-283)
  and `__check_row` (285-286).  Note: `check_win` invokes
  `self.__check_column` and `self.__check_square`, attributes that do not
  exist on the class (the defined methods are named `__check_col` and
  `__check_sqr`, and their bodies reference the undefined free variables
  `column`, `row` and `col`).  In Python this attribute lookup happens
  dynamically, so `check_win` returns `False` as soon as some row check
  fails, and raises `AttributeError` on its first column-loop iteration
  otherwise.  The embedding models that raise as an `Except.error`.
* `SudokuUI.__key_pressed` (lines 158-176): the only writer of
  `puzzle[row][col]`; it silently returns when the game is over, when no
  cell is selected (`row`/`col` are `-1`), or when the pressed character
  is not in "1234567890".  The canvas drawing calls are omitted from the
  embedding: they only read state.

Lists model Python lists; `Except String` models raised exceptions.
-/

namespace SudokuPy

/-- Whitespace characters removed by Python 2 `str.strip()`:
space, tab, newline, carriage return, vertical tab, form feed. -/
def isPySpace (c : Char) : Bool :=
  c = ' ' || c = '\t' || c = '\n' || c = '\r' || c = Char.ofNat 11 || c = Char.ofNat 12

/-- Python `line.strip()`: drop leading and trailing whitespace. -/
def pyStrip (l : List Char) : List Char :=
  ((l.dropWhile isPySpace).reverse.dropWhile isPySpace).reverse

/-- Python `int(charac)` for a single digit character. -/
def charToVal (c : Char) : Nat := c.toNat - 48

/-- Message of the `SudokuError` raised for a line whose stripped length is not 9. -/
def lineLenErr : String := "Each line in the sudoku puzzle must be 9 chars long"

/-- Message of the `SudokuError` raised for a non-digit character. -/
def charErr : String := "Each set of characters in the sudoku puzzle must be within 0-9"

/-- Message of the `SudokuError` raised when the board does not have 9 lines. -/
def countErr : String := "Error: length of board must be 9"

/-- The inner loop of `SudokuBoard.__create_board`: convert the characters of
one (already stripped) line, raising `SudokuError` at the first non-digit. -/
def parseLine : List Char → Except String (List Nat)
  | [] => Except.ok []
  | c :: cs =>
    if c.isDigit then (parseLine cs).map (fun r => charToVal c :: r)
    else Except.error charErr

/-- The outer loop of `SudokuBoard.__create_board`: strip each line, raise if
its length is not 9, otherwise convert its characters and accumulate rows. -/
def parseLines : List (List Char) → Except String (List (List Nat))
  | [] => Except.ok []
  | l :: ls =>
    let s := pyStrip l
    if s.length = 9 then
      match parseLine s with
      | Except.error e => Except.error e
      | Except.ok row =>
        match parseLines ls with
        | Except.error e => Except.error e
        | Except.ok rest => Except.ok (row :: rest)
    else Except.error lineLenErr

/-- `SudokuBoard.__create_board`: run the line loop, then raise unless exactly
9 lines were accepted. -/
def create_board (ls : List (List Char)) : Except String (List (List Nat)) :=
  match parseLines ls with
  | Except.error e => Except.error e
  | Except.ok b => if b.length = 9 then Except.ok b else Except.error countErr

/-- State of a `SudokuGame` object after `start()` has run: the loaded
`start_puzzle`, the working `puzzle`, and the `game_over` flag. -/
structure SudokuGame where
  start_puzzle : List (List Nat)
  puzzle : List (List Nat)
  game_over : Bool
  deriving Repr, DecidableEq

/-- `SudokuGame.__check_block`: `set(block) == set(range(1, 10))`. -/
def check_block (block : List Nat) : Bool :=
  decide (block.toFinset = (List.range' 1 9).toFinset)

/-- `SudokuGame.__check_row`: check the block `self.puzzle[row]`.  Indexing is
total via `getD`; it agrees with Python on the 9-row boards the game builds. -/
def check_row (g : SudokuGame) (row : Nat) : Bool :=
  check_block (g.puzzle.getD row [])

/-- The `AttributeError` raised by `check_win`'s column loop: the class defines
`__check_col`, not the `__check_column` that `check_win` looks up. -/
def attrErr : String :=
  "AttributeError: SudokuGame instance has no attribute _SudokuGame__check_column"

/-- `SudokuGame.check_win`: the row loop returns `False` at the first invalid
row; if all nine rows pass, the first iteration of the column loop looks up the
undefined attribute `__check_column` and raises `AttributeError`, so the square
loop and the `self.game_over = True` assignment are unreachable. -/
def check_win (g : SudokuGame) : Except String (Bool × SudokuGame) :=
  if (List.range 9).all (fun row => check_row g row) then
    Except.error attrErr
  else
    Except.ok (false, g)

/-- `SudokuGame.start`: set `game_over` to `False` and rebuild `puzzle` cell by
cell from `start_puzzle` with the nested `i`/`j` loops over `xrange(9)`. -/
def start (g : SudokuGame) : SudokuGame :=
  { g with
    game_over := false
    puzzle :=
      (List.range 9).map (fun i =>
        (List.range 9).map (fun j => (g.start_puzzle.getD i []).getD j 0)) }

/-- State of the `SudokuUI` relevant to `__key_pressed`: the game and the
currently selected `row`/`col` (`-1` when no cell is selected). -/
structure UIState where
  game : SudokuGame
  row : Int
  col : Int
  deriving Repr, DecidableEq

/-- The string "1234567890" the key handler tests `event.char` against. -/
def digitChars : List Char := "1234567890".toList

/-- Python `self.game.puzzle[r][c] = v` for in-range `r`, `c`. -/
def setCellRaw (p : List (List Nat)) (r c v : Nat) : List (List Nat) :=
  p.set r ((p.getD r []).set c v)

/-- Message of the `IndexError` Python raises on an out-of-bounds list index. -/
def indexErr : String := "IndexError: list index out of range"

/-- Message of the `TypeError` a winning move would raise: `__draw_victory` is
defined without a `self` parameter.  Unreachable, since `check_win` never
returns `True`. -/
def typeErr : String := "TypeError: __draw_victory() takes no arguments (1 given)"

/-- `SudokuUI.__key_pressed`: return untouched if the game is over; if a cell
is selected (`col >= 0 and row >= 0`) and the key is in "1234567890", write the
digit into `puzzle[row][col]`, deselect, and run `check_win` (whose exception
propagates; a `True` result would call the broken `__draw_victory`); otherwise
silently do nothing.  Canvas drawing is omitted: it only reads state. -/
def key_pressed (s : UIState) (ch : Char) : Except String UIState :=
  if s.game.game_over then Except.ok s
  else if 0 ≤ s.col ∧ 0 ≤ s.row ∧ ch ∈ digitChars then
    let r := s.row.toNat
    let c := s.col.toNat
    if r < s.game.puzzle.length then
      if c < (s.game.puzzle.getD r []).length then
        let g1 : SudokuGame :=
          { s.game with puzzle := setCellRaw s.game.puzzle r c (charToVal ch) }
        match check_win g1 with
        | Except.error e => Except.error e
        | Except.ok (true, _) => Except.error typeErr
        | Except.ok (false, g2) => Except.ok { game := g2, row := -1, col := -1 }
      else Except.error indexErr
    else Except.error indexErr
  else Except.ok s

/-- The fully solved board of spec scenario 1 (rows "534678912", "672195348", ...). -/
def solvedBoard : List (List Nat) :=
  [[5,3,4,6,7,8,9,1,2],
   [6,7,2,1,9,5,3,4,8],
   [1,9,8,3,4,2,5,6,7],
   [8,5,9,7,6,1,4,2,3],
   [4,2,6,8,5,3,7,9,1],
   [7,1,3,9,2,4,8,5,6],
   [9,6,1,5,3,7,2,8,4],
   [2,8,7,4,1,9,6,3,5],
   [3,4,5,2,8,6,1,7,9]]

/-- A 9-line board source whose first line has a leading space and whose
second line has a trailing space; both strip to 9 digits. -/
def paddedLines : List (List Char) :=
  [" 534678912", "672195348 ", "198342567", "859761423", "426853791",
   "713924856", "961537284", "287419635", "345286179"].map String.toList

/-- The 9 lines of the solved board of spec scenario 1, unpadded. -/
def demoLines : List (List Char) :=
  ["534678912", "672195348", "198342567", "859761423", "426853791",
   "713924856", "961537284", "287419635", "345286179"].map String.toList

/-! ### Loader lemmas -/

theorem parseLine_ok (s : List Char) (h : ∀ c ∈ s, c.isDigit = true) :
    parseLine s = Except.ok (s.map charToVal) := by
  induction s with
  | nil => rfl
  | cons c cs ih =>
    have hc : c.isDigit = true := h c (List.mem_cons_self c cs)
    have ih2 := ih (fun x hx => h x (List.mem_cons_of_mem c hx))
    simp [parseLine, hc, ih2, Except.map]

theorem parseLine_ok_digits (s : List Char) :
    ∀ r : List Nat, parseLine s = Except.ok r → ∀ c ∈ s, c.isDigit = true := by
  induction s with
  | nil => intro r _ c hc; cases hc
  | cons c cs ih =>
    intro r h x hx
    by_cases hc : c.isDigit = true
    · rcases List.mem_cons.mp hx with rfl | hx2
      · exact hc
      · simp only [parseLine, if_pos hc] at h
        cases hcs : parseLine cs with
        | error e => rw [hcs] at h; simp [Except.map] at h
        | ok r2 => exact ih r2 hcs x hx2
    · simp only [parseLine, if_neg hc] at h
      cases h

theorem parseLines_ok (ls : List (List Char))
    (h : ∀ l ∈ ls, (pyStrip l).length = 9 ∧ ∀ c ∈ pyStrip l, c.isDigit = true) :
    parseLines ls = Except.ok (ls.map (fun l => (pyStrip l).map charToVal)) := by
  induction ls with
  | nil => rfl
  | cons l ls ih =>
    obtain ⟨h1, h2⟩ := h l (List.mem_cons_self l ls)
    have ih2 := ih (fun x hx => h x (List.mem_cons_of_mem l hx))
    simp [parseLines, h1, parseLine_ok _ h2, ih2]

theorem parseLines_ok_inv (ls : List (List Char)) :
    ∀ b : List (List Nat), parseLines ls = Except.ok b →
      b.length = ls.length ∧
        ∀ l ∈ ls, (pyStrip l).length = 9 ∧ ∀ c ∈ pyStrip l, c.isDigit = true := by
  induction ls with
  | nil =>
    intro b h
    simp only [parseLines, Except.ok.injEq] at h
    subst h
    simp
  | cons l ls ih =>
    intro b h
    simp only [parseLines] at h
    by_cases h1 : (pyStrip l).length = 9
    · rw [if_pos h1] at h
      cases hpl : parseLine (pyStrip l) with
      | error e => rw [hpl] at h; cases h
      | ok row =>
        rw [hpl] at h
        cases hpls : parseLines ls with
        | error e => rw [hpls] at h; cases h
        | ok rest =>
          rw [hpls] at h
          simp only [Except.ok.injEq] at h
          subst h
          obtain ⟨hlen, hall⟩ := ih rest hpls
          refine ⟨by simp [hlen], ?_⟩
          intro x hx
          rcases List.mem_cons.mp hx with rfl | hx2
          · exact ⟨h1, parseLine_ok_digits _ row hpl⟩
          · exact hall x hx2
    · rw [if_neg h1] at h
      cases h

theorem create_board_ok (ls : List (List Char)) (h9 : ls.length = 9)
    (h : ∀ l ∈ ls, (pyStrip l).length = 9 ∧ ∀ c ∈ pyStrip l, c.isDigit = true) :
    create_board ls = Except.ok (ls.map (fun l => (pyStrip l).map charToVal)) := by
  simp [create_board, parseLines_ok ls h, h9]

/-! ### Claims about the loader -/

/-- C2: for every well-formed input (exactly 9 lines, each exactly 9 ASCII
digit characters after stripping), `create_board` returns a 9x9 board whose
cell `[i][j]` is the integer value of character `j` of (stripped) line `i`. -/
theorem create_board_roundtrip (ls : List (List Char)) (h9 : ls.length = 9)
    (hlen : ∀ l ∈ ls, (pyStrip l).length = 9)
    (hdig : ∀ l ∈ ls, ∀ c ∈ pyStrip l, c.isDigit = true) :
    ∃ b, create_board ls = Except.ok b ∧ b.length = 9 ∧
      ∀ i j, i < 9 → j < 9 →
        (b.getD i []).getD j 10 = charToVal ((pyStrip (ls.getD i [])).getD j ' ') := by
  refine ⟨ls.map (fun l => (pyStrip l).map charToVal),
    create_board_ok ls h9 (fun l hl => ⟨hlen l hl, hdig l hl⟩), by simp [h9], ?_⟩
  intro i j hi hj
  have hi2 : i < ls.length := by omega
  have hgd : ls.getD i [] = ls[i] := List.getD_eq_getElem _ _ hi2
  have hmem : ls[i] ∈ ls := List.getElem_mem hi2
  have hj2 : j < (pyStrip ls[i]).length := by rw [hlen _ hmem]; exact hj
  have hj3 : j < ((pyStrip ls[i]).map charToVal).length := by simpa using hj2
  have hi3 : i < (ls.map (fun l => (pyStrip l).map charToVal)).length := by
    simpa using hi2
  rw [hgd, List.getD_eq_getElem _ _ hi3, List.getElem_map,
    List.getD_eq_getElem _ _ hj3, List.getElem_map, List.getD_eq_getElem _ _ hj2]

/-- C3: `create_board` raises a `SudokuError` whenever the input is malformed:
some line's stripped length is not 9, some character is not an ASCII digit, or
the line count is not 9; no board is returned. -/
theorem create_board_rejects (ls : List (List Char))
    (hbad : ls.length ≠ 9 ∨
      ∃ l ∈ ls, (pyStrip l).length ≠ 9 ∨ ∃ c ∈ pyStrip l, ¬ c.isDigit = true) :
    ∃ e, create_board ls = Except.error e := by
  cases hcb : create_board ls with
  | error e => exact ⟨e, rfl⟩
  | ok b =>
    exfalso
    simp only [create_board] at hcb
    cases hpls : parseLines ls with
    | error e =>
      rw [hpls] at hcb
      have hcb2 : (Except.error e : Except String (List (List Nat))) =
          Except.ok b := hcb
      cases hcb2
    | ok b2 =>
      rw [hpls] at hcb
      have hcb2 : (if b2.length = 9 then Except.ok b2
          else (Except.error countErr : Except String (List (List Nat)))) =
          Except.ok b := hcb
      by_cases h9 : b2.length = 9
      · obtain ⟨hlen, hall⟩ := parseLines_ok_inv ls b2 hpls
        rcases hbad with h | ⟨l, hl, h | ⟨c, hc, h⟩⟩
        · exact h (hlen ▸ h9)
        · exact h (hall l hl).1
        · exact h ((hall l hl).2 c hc)
      · rw [if_neg h9] at hcb2
        cases hcb2

/-- Witness for C3: an 8-line input, a 10-line input, a line of length 8, and
a line containing a letter are each rejected. -/
theorem create_board_rejects_witness :
    (∃ e, create_board (demoLines.take 8) = Except.error e) ∧
    (∃ e, create_board (demoLines ++ ["534678912".toList]) = Except.error e) ∧
    (∃ e, create_board (["53467891"].map String.toList ++ demoLines.drop 1) =
      Except.error e) ∧
    (∃ e, create_board (["53467891a"].map String.toList ++ demoLines.drop 1) =
      Except.error e) :=
  ⟨create_board_rejects _ (by decide), create_board_rejects _ (by decide),
   create_board_rejects _ (by decide), create_board_rejects _ (by decide)⟩

/-- Witness for C2: the solved demo board round-trips cell by cell. -/
theorem create_board_roundtrip_witness :
    demoLines.length = 9 ∧ (∀ l ∈ demoLines, (pyStrip l).length = 9) ∧
    (∀ l ∈ demoLines, ∀ c ∈ pyStrip l, c.isDigit = true) ∧
    (∃ b, create_board demoLines = Except.ok b ∧ b.length = 9 ∧
      ∀ i j, i < 9 → j < 9 →
        (b.getD i []).getD j 10 = charToVal ((pyStrip (demoLines.getD i [])).getD j ' ')) :=
  ⟨by decide, by decide, by decide,
   create_board_roundtrip demoLines (by decide) (by decide) (by decide)⟩

/-- C10: the loader also accepts lines padded with leading whitespace (and
trailing whitespace): a raw line longer than 9 characters parses successfully
when its stripped content is 9 digits. -/
theorem create_board_accepts_padding :
    create_board paddedLines = Except.ok solvedBoard ∧
    (paddedLines.getD 0 []).length = 10 ∧ (paddedLines.getD 1 []).length = 10 :=
  ⟨rfl, rfl, rfl⟩

/-! ### Block-validation lemmas -/

theorem nineSet_eq : (List.range' 1 9).toFinset = Finset.Icc 1 9 := by decide

theorem check_block_true_iff (b : List Nat) :
    check_block b = true ↔ b.toFinset = Finset.Icc 1 9 := by
  rw [check_block, decide_eq_true_eq, nineSet_eq]

theorem check_block_false_of_zero_mem (b : List Nat) (h0 : (0 : Nat) ∈ b) :
    check_block b = false := by
  rw [Bool.eq_false_iff, Ne, check_block_true_iff]
  intro hEq
  have h1 : (0 : Nat) ∈ Finset.Icc 1 9 := hEq ▸ List.mem_toFinset.mpr h0
  simp at h1

/-- C4: `__check_block` returns true iff the set of values equals {1,...,9};
for a 9-cell block of values in [0,9] it fails exactly when some value is 0,
some value repeats, or some value of 1..9 is missing. -/
theorem check_block_spec (b : List Nat) (hlen : b.length = 9)
    (hval : ∀ v ∈ b, v ≤ 9) :
    (check_block b = true ↔ b.toFinset = Finset.Icc 1 9) ∧
    (check_block b = false ↔
      (0 ∈ b ∨ ¬ b.Nodup ∨ ∃ v, 1 ≤ v ∧ v ≤ 9 ∧ v ∉ b)) := by
  refine ⟨check_block_true_iff b, ?_⟩
  rw [Bool.eq_false_iff, Ne, check_block_true_iff]
  constructor
  · intro hne
    by_contra hcon
    push_neg at hcon
    obtain ⟨h0, hnd, hmiss⟩ := hcon
    apply hne
    apply Finset.Subset.antisymm
    · intro x hx
      have hxb : x ∈ b := List.mem_toFinset.mp hx
      have hx9 : x ≤ 9 := hval x hxb
      have hx1 : 1 ≤ x := by
        rcases Nat.eq_zero_or_pos x with rfl | h
        · exact absurd hxb h0
        · exact h
      exact Finset.mem_Icc.mpr ⟨hx1, hx9⟩
    · intro v hv
      obtain ⟨hv1, hv9⟩ := Finset.mem_Icc.mp hv
      exact List.mem_toFinset.mpr (hmiss v hv1 hv9)
  · intro hdisj hEq
    rcases hdisj with h0 | hnd | ⟨v, hv1, hv9, hvb⟩
    · have h1 : (0 : Nat) ∈ Finset.Icc 1 9 := hEq ▸ List.mem_toFinset.mpr h0
      simp at h1
    · apply hnd
      have hcard : b.toFinset.card = 9 := by
        rw [hEq, Nat.card_Icc]
      have hded : b.dedup.length = b.length := by
        rw [← List.card_toFinset, hcard, hlen]
      have hdd : b.dedup = b := (List.dedup_sublist b).eq_of_length hded
      rw [← hdd]
      exact List.nodup_dedup b
    · exact hvb (List.mem_toFinset.mp
        (hEq ▸ Finset.mem_Icc.mpr ⟨hv1, hv9⟩))

/-- Witness for C4: a fully valid block. -/
theorem check_block_spec_witness :
    ([1,2,3,4,5,6,7,8,9] : List Nat).length = 9 ∧
    (∀ v ∈ ([1,2,3,4,5,6,7,8,9] : List Nat), v ≤ 9) ∧
    ((check_block [1,2,3,4,5,6,7,8,9] = true ↔
        ([1,2,3,4,5,6,7,8,9] : List Nat).toFinset = Finset.Icc 1 9) ∧
      (check_block [1,2,3,4,5,6,7,8,9] = false ↔
        (0 ∈ ([1,2,3,4,5,6,7,8,9] : List Nat) ∨
          ¬ ([1,2,3,4,5,6,7,8,9] : List Nat).Nodup ∨
          ∃ v, 1 ≤ v ∧ v ≤ 9 ∧ v ∉ ([1,2,3,4,5,6,7,8,9] : List Nat)))) :=
  ⟨by decide, by decide, check_block_spec [1,2,3,4,5,6,7,8,9] (by decide) (by decide)⟩

/-! ### Claims about `check_win` -/

/-- The game state holding the solved board of spec scenario 1. -/
def solvedGame : SudokuGame :=
  { start_puzzle := solvedBoard, puzzle := solvedBoard, game_over := false }

/-- C1 (code bug): on the fully valid completed board of spec scenario 1 —
every row, every column and every non-overlapping 3x3 square is exactly
{1,...,9} — `check_win` does not return `True` and does not set `game_over`:
it raises `AttributeError`, because after all nine row checks pass it looks up
the undefined attribute `__check_column`. -/
theorem check_win_solved_crashes :
    ((List.range 9).all (fun r => check_block (solvedBoard.getD r [])) = true) ∧
    ((List.range 9).all
      (fun c => check_block (solvedBoard.map (fun row => row.getD c 0))) = true) ∧
    ((List.range 3).all (fun br => (List.range 3).all (fun bc =>
      check_block ((List.range 3).flatMap (fun i => (List.range 3).map (fun j =>
        (solvedBoard.getD (3 * br + i) []).getD (3 * bc + j) 0))))) = true) ∧
    check_win solvedGame = Except.error attrErr :=
  ⟨by decide, by decide, by decide, rfl⟩

/-- A board whose nine rows are all the same valid row: every row check
passes, yet the board is not a valid solution (every column is constant). -/
def rowsOnlyBoard : List (List Nat) := List.replicate 9 [5,3,4,6,7,8,9,1,2]

/-- The game state holding `rowsOnlyBoard`. -/
def rowsOnlyGame : SudokuGame :=
  { start_puzzle := rowsOnlyBoard, puzzle := rowsOnlyBoard, game_over := false }

/-- C6 (code bug): on a board that is not a valid solution but whose nine rows
all pass the row check, `check_win` neither returns `False` nor leaves the
session running normally: it raises `AttributeError` from the column loop.
(The first conjuncts show the rows pass and column 0 is constant.) -/
theorem check_win_rows_valid_crashes :
    check_block ([5,3,4,6,7,8,9,1,2] : List Nat) = true ∧
    rowsOnlyBoard.map (fun row => row.getD 0 0) = List.replicate 9 5 ∧
    check_win rowsOnlyGame = Except.error attrErr :=
  ⟨by decide, by decide, rfl⟩

/-- C5: a working board containing a blank (a 0 cell in some row) never passes
`check_win`: the containing row's check fails, so the row loop returns `False`
without touching `game_over`. -/
theorem check_win_incomplete_false (g : SudokuGame) (i : Nat)
    (_hshape : g.puzzle.length = 9) (_hrows : ∀ r ∈ g.puzzle, r.length = 9)
    (hi : i < 9) (h0 : (0 : Nat) ∈ g.puzzle.getD i []) :
    check_win g = Except.ok (false, g) := by
  have hrow : check_row g i = false := check_block_false_of_zero_mem _ h0
  have hall : ¬ ((List.range 9).all (fun row => check_row g row) = true) := by
    intro hallt
    have h2 := List.all_eq_true.mp hallt i (List.mem_range.mpr hi)
    rw [hrow] at h2
    cases h2
  rw [check_win, if_neg hall]

/-- A game whose working board is all blanks. -/
def zeroBoard : List (List Nat) := List.replicate 9 (List.replicate 9 0)

/-- A game state holding the all-blank board. -/
def zGame : SudokuGame :=
  { start_puzzle := zeroBoard, puzzle := zeroBoard, game_over := false }

/-- Witness for C5: the all-blank board fails `check_win`. -/
theorem check_win_incomplete_false_witness :
    zGame.puzzle.length = 9 ∧ (∀ r ∈ zGame.puzzle, r.length = 9) ∧
    (0 : Nat) ∈ zGame.puzzle.getD 0 [] ∧
    check_win zGame = Except.ok (false, zGame) :=
  ⟨rfl, by decide, by decide,
   check_win_incomplete_false zGame 0 rfl (by decide) (by decide) (by decide)⟩

/-! ### Claims about `start` -/

theorem map_range_getD {α : Type} (l : List α) (d : α) :
    (List.range l.length).map (fun i => l.getD i d) = l := by
  induction l with
  | nil => rfl
  | cons a t ih =>
    rw [List.length_cons, List.range_succ_eq_map, List.map_cons, List.map_map]
    have hcomp : ((fun i => (a :: t).getD i d) ∘ Nat.succ) =
        (fun i => t.getD i d) := by
      funext i
      rfl
    rw [hcomp, ih]
    rfl

theorem start_puzzle_copy (g : SudokuGame) (h9 : g.start_puzzle.length = 9)
    (hrows : ∀ r ∈ g.start_puzzle, r.length = 9) :
    (start g).puzzle = g.start_puzzle := by
  show (List.range 9).map (fun i =>
    (List.range 9).map (fun j => (g.start_puzzle.getD i []).getD j 0)) =
    g.start_puzzle
  have key : ∀ i ∈ List.range 9,
      (List.range 9).map (fun j => (g.start_puzzle.getD i []).getD j 0) =
        g.start_puzzle.getD i [] := by
    intro i hi
    have hi9 : i < 9 := List.mem_range.mp hi
    have hi2 : i < g.start_puzzle.length := by omega
    have hmem : g.start_puzzle.getD i [] ∈ g.start_puzzle := by
      rw [List.getD_eq_getElem _ _ hi2]
      exact List.getElem_mem hi2
    have hrl : (g.start_puzzle.getD i []).length = 9 := hrows _ hmem
    rw [← hrl]
    exact map_range_getD _ 0
  rw [List.map_congr_left key, ← h9]
  exact map_range_getD _ []

/-- C7: `start` always succeeds, sets the working board to a copy of the start
board, and clears `game_over`; it is idempotent in effect: after one or two
calls the working board equals the start board and `game_over` is false. -/
theorem start_spec (g : SudokuGame) (h9 : g.start_puzzle.length = 9)
    (hrows : ∀ r ∈ g.start_puzzle, r.length = 9) :
    (start g).puzzle = g.start_puzzle ∧ (start g).game_over = false ∧
    (start (start g)).puzzle = g.start_puzzle ∧
    (start (start g)).game_over = false := by
  have hsp : (start g).start_puzzle = g.start_puzzle := rfl
  refine ⟨start_puzzle_copy g h9 hrows, rfl, ?_, rfl⟩
  have h2 := start_puzzle_copy (start g) (by rw [hsp]; exact h9)
    (by rw [hsp]; exact hrows)
  rw [hsp] at h2
  exact h2

/-- A game state whose working board has been cleared and whose `game_over`
flag is (incorrectly) raised, to exercise `start`. -/
def staleGame : SudokuGame :=
  { start_puzzle := solvedBoard, puzzle := [], game_over := true }

/-- Witness for C7: `start` resets `staleGame`. -/
theorem start_spec_witness :
    staleGame.start_puzzle.length = 9 ∧
    (∀ r ∈ staleGame.start_puzzle, r.length = 9) ∧
    ((start staleGame).puzzle = staleGame.start_puzzle ∧
      (start staleGame).game_over = false ∧
      (start (start staleGame)).puzzle = staleGame.start_puzzle ∧
      (start (start staleGame)).game_over = false) :=
  ⟨rfl, by decide, start_spec staleGame rfl (by decide)⟩

/-- C9: the start board is never mutated: `start` leaves every cell of
`start_puzzle` unchanged, and so does any `check_win` call that returns
(rather than raising). -/
theorem start_puzzle_never_mutated (g : SudokuGame) :
    (start g).start_puzzle = g.start_puzzle ∧
    ∀ (b : Bool) (g2 : SudokuGame), check_win g = Except.ok (b, g2) →
      g2.start_puzzle = g.start_puzzle := by
  refine ⟨rfl, ?_⟩
  intro b g2 h
  rw [check_win] at h
  by_cases hall : ((List.range 9).all (fun row => check_row g row)) = true
  · rw [if_pos hall] at h
    cases h
  · rw [if_neg hall] at h
    simp only [Except.ok.injEq, Prod.mk.injEq] at h
    rw [← h.2]

/-- Witness for C9: `start` and a returning `check_win` preserve the start
board of the all-blank game. -/
theorem start_puzzle_never_mutated_witness :
    (start zGame).start_puzzle = zGame.start_puzzle ∧
    zGame.start_puzzle = zGame.start_puzzle :=
  ⟨(start_puzzle_never_mutated zGame).1,
   (start_puzzle_never_mutated zGame).2 false zGame rfl⟩

/-! ### Claims about the key handler (the only writer of cells) -/

/-- The UI state with no cell selected: `row = col = -1`, out of [0,8]. -/
def idleUI : UIState := { game := zGame, row := -1, col := -1 }

/-- Counterexample to C8: with the out-of-range selection `row = col = -1`
and the in-range value 5, `__key_pressed` signals no error at all — it
returns with the state unchanged, silently ignoring the write. -/
theorem key_pressed_out_of_range_no_error :
    key_pressed idleUI '5' = Except.ok idleUI ∧ idleUI.row < 0 ∧ idleUI.col < 0 :=
  ⟨rfl, by decide, by decide⟩

/-- C8 amended: when the game is not over, an out-of-range (negative)
selected row or column, or a value key outside "1234567890", makes
`__key_pressed` silently ignore the input: the state is returned unchanged
and no error condition is signalled. -/
theorem key_pressed_silently_ignores (s : UIState) (ch : Char)
    (hgo : s.game.game_over = false)
    (hbad : s.col < 0 ∨ s.row < 0 ∨ ch ∉ digitChars) :
    key_pressed s ch = Except.ok s := by
  have h1 : ¬ s.game.game_over = true := by
    rw [hgo]
    exact Bool.false_ne_true
  have h2 : ¬ (0 ≤ s.col ∧ 0 ≤ s.row ∧ ch ∈ digitChars) := by
    rintro ⟨hc, hr, hch⟩
    rcases hbad with h | h | h
    · omega
    · omega
    · exact h hch
  rw [key_pressed, if_neg h1, if_neg h2]

/-- Witness for the amended C8: a key press with nothing selected. -/
theorem key_pressed_silently_ignores_witness :
    idleUI.game.game_over = false ∧
    (idleUI.col < 0 ∨ idleUI.row < 0 ∨ '7' ∉ digitChars) ∧
    key_pressed idleUI '7' = Except.ok idleUI :=
  ⟨rfl, by decide, key_pressed_silently_ignores idleUI '7' rfl (by decide)⟩

end SudokuPy
